import Mathlib

/-!
Verification of the AfriGuard job-pipeline and live-queue broadcast engine
(Backend/main.py) against its natural-language specification.

The Python source is shallowly embedded below: pure computations become Lean
functions on `ℚ`/`ℕ`/`String`, the mutable queue/database state becomes
explicit state passing (`QueueManager`, `SysState`), and each HTTP endpoint
(`detect_image_manipulation`, `detect_audio_manipulation`,
`detect_video_manipulation`) becomes a state-transition function that also
returns the trace of progress values written to the job's queue entry.

Python floats are modelled by `ℚ`: every numeric comparison proved here is at
values where IEEE-754 doubles and exact rationals agree.  Python's
`round`/format rounding (half to even) is `roundHalfEven`.
-/

/-- Rounding half to even, the rule used by Python's `round` and `format`. -/
def roundHalfEven (q : ℚ) : ℤ :=
  let f := ⌊q⌋
  let r := q - (f : ℚ)
  if r < 1 / 2 then f
  else if 1 / 2 < r then f + 1
  else if f % 2 = 0 then f else f + 1

/-- Model of Python's `round(x, n)` on non-negative values. -/
def pyRound (q : ℚ) (n : ℕ) : ℚ := (roundHalfEven (q * 10 ^ n) : ℚ) / 10 ^ n

/-- Model of the f-string conversion `{x:.0f}` (used in verdicts). -/
def fmt0f (q : ℚ) : String := toString (roundHalfEven q)

/-- Model of the f-string conversion `{x:.1f}` (used in explanations),
for the non-negative values the handlers pass to it. -/
def fmt1f (q : ℚ) : String :=
  let n := roundHalfEven (q * 10)
  toString (n / 10) ++ ("." : String) ++ toString (n % 10)

/-- Model of Python's `/`, which raises `ZeroDivisionError` on a zero
divisor: `none` marks the exception. -/
def pyDiv (a b : ℚ) : Option ℚ := if b = 0 then none else some (a / b)

/-- Lifecycle status of a case record (`CaseStatus` enum in the source). -/
inductive CaseStatus where
  | analyzing
  | completed
  | failed
deriving DecidableEq, Repr

/-- One row of the `cases` table (the Job Record).  The fields not referenced
by any claim (`media_url`, `heatmap_url`, `processing_time_ms`) are omitted;
timestamps are abstract naturals. -/
structure CaseRec where
  id : String
  mediaType : String
  status : CaseStatus
  confidence : ℚ
  verdict : String
  faceScore : Option ℚ
  voiceScore : Option ℚ
  lipsyncScore : Option ℚ
  explanation : Option String
  completedAt : Option ℕ
  filename : String
  workerId : String
deriving DecidableEq, Repr

/-- A queue entry dict as stored in `QueueManager.queue_items`
(`submittedAt` is carried by the case record and not needed here). -/
structure QueueItem where
  id : String
  mediaType : String
  progress : ℕ
  status : String
  workerId : String
deriving DecidableEq, Repr

/-- One attached WebSocket connection.  `failsDelivery` models whether
`send_json` raises on this channel during a broadcast. -/
structure Conn where
  cid : ℕ
  failsDelivery : Bool
deriving DecidableEq, Repr

/-- The `QueueManager` object: active connections plus the queue snapshot. -/
structure QueueManager where
  active_connections : List Conn
  queue_items : List QueueItem
deriving DecidableEq, Repr

/-- `QueueManager.broadcast`: stores `data` as the current snapshot and
attempts delivery to every connection; a raising channel is skipped
(`except: pass`) and, crucially, left in `active_connections`.  The second
component lists the connection ids that actually received the snapshot. -/
def QueueManager.broadcast (qm : QueueManager) (data : List QueueItem) :
    QueueManager × List ℕ :=
  ({ qm with queue_items := data },
   (qm.active_connections.filter (fun c => !c.failsDelivery)).map Conn.cid)

/-- `QueueManager.add_item`: unconditionally appends the item. -/
def QueueManager.add_item (qm : QueueManager) (item : QueueItem) : QueueManager :=
  { qm with queue_items := qm.queue_items ++ [item] }

/-- `QueueManager.remove_item`: keeps every item whose id differs. -/
def QueueManager.remove_item (qm : QueueManager) (item_id : String) : QueueManager :=
  { qm with queue_items := qm.queue_items.filter (fun i => !(i.id == item_id)) }

/-- The loop body of `QueueManager.update_item`: update the first item with a
matching id and stop (`break`). -/
def updateFirst : List QueueItem → String → ℕ → String → List QueueItem
  | [], _, _, _ => []
  | item :: rest, item_id, p, s =>
    if item.id == item_id then { item with progress := p, status := s } :: rest
    else item :: updateFirst rest item_id p s

/-- `QueueManager.update_item`. -/
def QueueManager.update_item (qm : QueueManager) (item_id : String) (progress : ℕ)
    (stat : String) : QueueManager :=
  { qm with queue_items := updateFirst qm.queue_items item_id progress stat }

/-- The idiom `await queue_manager.broadcast(queue_manager.queue_items)` used
after every mutation in the handlers: re-broadcasts the current items. -/
def bcastSelf (qm : QueueManager) : QueueManager :=
  (qm.broadcast qm.queue_items).1

/-- A three-subscriber manager whose middle subscriber's channel raises on
delivery (the scenario of the spec). -/
def qm3 : QueueManager :=
  { active_connections := [⟨0, false⟩, ⟨1, true⟩, ⟨2, false⟩], queue_items := [] }

/-- Model of Python's `str.lower()`: lower-case every character. -/
def strLower (s : String) : String := String.mk (s.data.map Char.toLower)

/-- Model of Python's `str.endswith(suffix)`: suffix match on the character
sequence. -/
def strEndsWith (s suffix : String) : Bool := suffix.data.isSuffixOf s.data

/-- Format whitelist check of `/api/detect/image`:
`image.filename.lower().endswith(('.png','.jpg','.jpeg','.bmp','.webp'))`. -/
def validImageName (fn : String) : Bool :=
  [(".png" : String), (".jpg"), (".jpeg"), (".bmp"), (".webp")].any
    (fun e => strEndsWith (strLower fn) e)

/-- Format whitelist check of the audio loop:
`audio.filename.lower().endswith(('.wav','.mp3','.m4a','.ogg','.flac'))`. -/
def validAudioName (fn : String) : Bool :=
  [(".wav" : String), (".mp3"), (".m4a"), (".ogg"), (".flac")].any
    (fun e => strEndsWith (strLower fn) e)

/-- Format whitelist check of `/api/detect/video`:
`video.filename.lower().endswith(('.mp4','.mov','.avi','.mkv','.webm'))`. -/
def validVideoName (fn : String) : Bool :=
  [(".mp4" : String), (".mov"), (".avi"), (".mkv"), (".webm")].any
    (fun e => strEndsWith (strLower fn) e)

/-- `generate_explanation(is_fake, confidence, media_type)`. -/
def generate_explanation (is_fake : Bool) (confidence : ℚ) (media_type : String) : String :=
  if is_fake then
    if media_type == ("image" : String) then
      ("Analysis detected manipulation artifacts with " : String) ++ fmt1f confidence ++
        ("% confidence. Visual inconsistencies were found in facial features, lighting patterns, and texture details that are characteristic of AI-generated or manipulated content.")
    else if media_type == ("video" : String) then
      ("Multi-frame analysis detected deepfake indicators with " : String) ++ fmt1f confidence ++
        ("% confidence. Inconsistencies were found in facial movements, temporal coherence, and lipsync patterns across analyzed frames.")
    else
      ("Audio analysis detected voice manipulation with " : String) ++ fmt1f confidence ++
        ("% confidence. Spectral analysis reveals artifacts consistent with voice cloning or synthesis technology.")
  else
    ("Analysis found no significant manipulation indicators. The content appears authentic with " : String) ++
      fmt1f (100 - confidence) ++ ("% confidence.")

/-- A freshly created case record (`Case(...)` constructor with the column
defaults of the model: status analyzing, confidence 0, verdict
"Processing...", all optional fields absent). -/
def mkCase (id mt fn worker : String) : CaseRec :=
  { id := id, mediaType := mt, status := CaseStatus.analyzing, confidence := 0,
    verdict := ("Processing..." : String), faceScore := none, voiceScore := none,
    lipsyncScore := none, explanation := none, completedAt := none,
    filename := fn, workerId := worker }

/-- The queue dict each handler registers before starting its pipeline. -/
def mkQueueItem (id mt worker : String) : QueueItem :=
  { id := id, mediaType := mt, progress := 0, status := ("preprocessing" : String),
    workerId := worker }

/-- The `except` block of `detect_image_manipulation` (its writes to the case
record): status failed, verdict "Analysis Failed", explanation `str(e)`.
It does not touch `completed_at`. -/
def image_commit_failure (c : CaseRec) (msg : String) : CaseRec :=
  { c with
      status := CaseStatus.failed
      verdict := ("Analysis Failed" : String)
      explanation := some msg }

/-- The `except` block of `detect_audio_manipulation` (its writes to the case
record): status failed, verdict "Analysis Failed".  It sets neither
`explanation` nor `completed_at`. -/
def audio_commit_failure (c : CaseRec) : CaseRec :=
  { c with
      status := CaseStatus.failed
      verdict := ("Analysis Failed" : String) }

/-- The `except` block of `detect_video_manipulation` (its writes to the case
record): status failed, verdict "Analysis Failed".  It sets neither
`explanation` nor `completed_at`. -/
def video_commit_failure (c : CaseRec) : CaseRec :=
  { c with
      status := CaseStatus.failed
      verdict := ("Analysis Failed" : String) }

/-- `db.commit()` after mutating the ORM object: the row with the object's
primary key takes the object's new field values. -/
def commitCase (cases : List CaseRec) (c : CaseRec) : List CaseRec :=
  cases.map (fun x => if x.id == c.id then c else x)

/-- The shared mutable state the handlers touch: the `cases` table and the
module-level `queue_manager`. -/
structure SysState where
  cases : List CaseRec
  qm : QueueManager
deriving DecidableEq, Repr

/-- The empty initial state. -/
def st0 : SysState := { cases := [], qm := { active_connections := [], queue_items := [] } }

/-- An HTTPException surfaced to the caller. -/
structure HttpError where
  code : ℕ
  detail : String
deriving DecidableEq, Repr

/-- `threshold = 0.86` of the audio handler. -/
def audio_threshold : ℚ := 86 / 100

/-- `is_same = similarity >= threshold`. -/
def audio_is_same (sim : ℚ) : Bool := decide (audio_threshold ≤ sim)

/-- `confidence = similarity * 100`.  Note: this is computed before the
verdict branch, so it measures similarity (confidence in "same speaker")
whichever verdict is reported. -/
def audio_confidence (sim : ℚ) : ℚ := sim * 100

/-- The audio verdict string
`f"{'Same Speaker' if is_same else 'Different Speakers'} ({confidence:.0f}% similarity)"`. -/
def audio_verdict (sim : ℚ) : String :=
  (if audio_is_same sim then ("Same Speaker" : String) else ("Different Speakers")) ++
    (" (") ++ fmt0f (audio_confidence sim) ++ ("% similarity)")

/-- `avg_fake_conf = np.mean(fake_confidences) if fake_confidences else 0`
(line 832 of the video handler). -/
def avg_fake_conf (l : List ℚ) : ℚ :=
  if l = [] then 0 else l.sum / (l.length : ℚ)

/-- `is_fake = avg_fake_conf > 60` (line 833). -/
def video_is_fake (l : List ℚ) : Bool := decide (60 < avg_fake_conf l)

/-- `confidence = avg_fake_conf if is_fake else (100 - avg_fake_conf if
avg_fake_conf > 0 else np.random.uniform(70, 90))` (line 834); `rand` is the
uniform draw. -/
def video_confidence (l : List ℚ) (rand : ℚ) : ℚ :=
  if video_is_fake l then avg_fake_conf l
  else if 0 < avg_fake_conf l then 100 - avg_fake_conf l
  else rand

/-- `frame_indices = np.linspace(0, max(total-1, 0), 8, dtype=int)`.
`ℕ` subtraction already clamps `total - 1` at 0 like `max(total-1, 0)`;
the eight evenly spaced values are `k * stop / 7` truncated to integers
(float rounding can perturb interior values by one, never the endpoints,
and no claim depends on interior values). -/
def frameIndices (total : ℕ) : List ℕ :=
  (List.range 8).map (fun k => k * (total - 1) / 7)

/-- Result dict of a successful `/api/detect/image` call. -/
structure ImageSuccess where
  caseId : String
  filename : String
  predicted_label : String
  is_fake : Bool
  confidence : ℚ
  verdict : String
  explanation : String
deriving DecidableEq, Repr

/-- Result dict of a successful `/api/detect/audio` call. -/
structure AudioSuccess where
  caseId : String
  similarity_score : ℚ
  is_same_speaker : Bool
  threshold : ℚ
  confidence : ℚ
  verdict : String
  explanation : String
deriving DecidableEq, Repr

/-- Result dict of a successful `/api/detect/video` call
(`frame_details` is the list of per-frame label/confidence pairs). -/
structure VideoSuccess where
  caseId : String
  filename : String
  duration_sec : ℚ
  frames_analyzed : ℕ
  is_fake : Bool
  confidence : ℚ
  verdict : String
  explanation : String
  frame_details : List (String × ℚ)
deriving DecidableEq, Repr

/-- Outcome of the inference stage inside the image handler's `try` block:
either the classifier's label and confidence (covering both the loaded-model
branch and the mock branch, which produce the same shape of data), or an
exception with message `msg` raised anywhere in the block. -/
inductive ClassifyOutcome where
  | ok (label : String) (conf : ℚ)
  | err (msg : String)
deriving DecidableEq, Repr

/-- `detect_image_manipulation`.  Arguments beyond the upload's filename are
the externally supplied values the handler consumes: a fresh case id, the
drawn worker id, the classifier outcome, the `np.random.uniform` draw used
for `face_score`, and the completion clock.  Returns the HTTP result, the
final state, and the list of progress values written to this job's queue
entry (the registration write included). -/
def detect_image (filename id worker : String) (oc : ClassifyOutcome)
    (faceRand : ℚ) (now : ℕ) (st : SysState) :
    Except HttpError ImageSuccess × SysState × List ℕ :=
  if !validImageName filename then
    (Except.error ⟨400, ("Invalid image format. Supported: png, jpg, jpeg, bmp, webp")⟩, st, [])
  else
    let case0 := mkCase id ("image") filename worker
    let cases1 := st.cases ++ [case0]
    let qm1 := bcastSelf (st.qm.add_item (mkQueueItem id ("image") worker))
    let qm2 := bcastSelf (qm1.update_item id 30 ("analyzing"))
    match oc with
    | ClassifyOutcome.err msg =>
      (Except.error ⟨500, ("Image analysis failed: ") ++ msg⟩,
       { cases := commitCase cases1 (image_commit_failure case0 msg),
         qm := bcastSelf (qm2.remove_item id) },
       [0, 30])
    | ClassifyOutcome.ok label conf =>
      let is_fake := [("fake" : String), ("deepfake"), ("manipulated")].contains (strLower label)
      let qm3 := bcastSelf (qm2.update_item id 70 ("llm_explaining"))
      let explanation := generate_explanation is_fake conf ("image")
      let qm4 := bcastSelf (qm3.update_item id 90 ("sending_result"))
      let verdict := fmt0f conf ++ ("% Likely ") ++
        (if is_fake then ("Manipulated" : String) else ("Authentic"))
      let done := { case0 with
                      status := CaseStatus.completed
                      confidence := pyRound conf 1
                      verdict := verdict
                      faceScore := some (pyRound
                        (if is_fake then conf + faceRand else conf - faceRand) 1)
                      explanation := some explanation
                      completedAt := some now }
      (Except.ok { caseId := id, filename := filename, predicted_label := label,
                   is_fake := is_fake, confidence := pyRound conf 2,
                   verdict := verdict, explanation := explanation },
       { cases := commitCase cases1 done, qm := bcastSelf (qm4.remove_item id) },
       [0, 30, 70, 90])

/-- `detect_audio_manipulation`.  `sim` is the cosine similarity the speaker
model (or the mock draw) produces.  The file-count check precedes case
creation; the per-file format check runs inside the `try` block, so a bad
format is caught by the generic handler and resurfaces as a 500.  The model
covers format failures and the success path; other exception sources
(decode, inference) hit the same `except` block as a format failure. -/
def detect_audio (files : List String) (id worker : String) (sim : ℚ) (now : ℕ)
    (st : SysState) : Except HttpError AudioSuccess × SysState × List ℕ :=
  if files.length ≠ 2 then
    (Except.error ⟨400, ("Exactly 2 audio files required for speaker verification")⟩, st, [])
  else
    let f0 := files.headD ("")
    let f1 := files.getD 1 ("")
    let case0 := mkCase id ("audio") (f0 ++ (" vs ") ++ f1) worker
    let cases1 := st.cases ++ [case0]
    let qm1 := bcastSelf (st.qm.add_item (mkQueueItem id ("audio") worker))
    if !validAudioName f0 then
      (Except.error ⟨500, ("Audio analysis failed: 400: Unsupported audio format: ") ++ f0⟩,
       { cases := commitCase cases1 (audio_commit_failure case0),
         qm := bcastSelf (qm1.remove_item id) },
       [0])
    else
      let qm2 := bcastSelf (qm1.update_item id 20 ("preprocessing"))
      if !validAudioName f1 then
        (Except.error ⟨500, ("Audio analysis failed: 400: Unsupported audio format: ") ++ f1⟩,
         { cases := commitCase cases1 (audio_commit_failure case0),
           qm := bcastSelf (qm2.remove_item id) },
         [0, 20])
      else
        let qm3 := bcastSelf (qm2.update_item id 35 ("preprocessing"))
        let qm4 := bcastSelf (qm3.update_item id 50 ("analyzing"))
        let is_same := audio_is_same sim
        let conf := audio_confidence sim
        let qm5 := bcastSelf (qm4.update_item id 80 ("llm_explaining"))
        let explanation := generate_explanation is_same conf ("audio")
        let done := { case0 with
                        status := CaseStatus.completed
                        confidence := pyRound conf 1
                        verdict := audio_verdict sim
                        voiceScore := some (pyRound conf 1)
                        explanation := some explanation
                        completedAt := some now }
        (Except.ok { caseId := id, similarity_score := pyRound sim 4,
                     is_same_speaker := is_same, threshold := audio_threshold,
                     confidence := pyRound conf 2, verdict := audio_verdict sim,
                     explanation := explanation },
         { cases := commitCase cases1 done, qm := bcastSelf (qm5.remove_item id) },
         [0, 20, 35, 50, 80])

/-- External inputs of one `detect_video_manipulation` run: the upload's
filename, the fresh case id and worker id, the reported frame count and
frame rate, which sampled positions decode (`cap.read` success), the
classifier's output for the k-th decoded frame, the `np.random.uniform`
draws, and the completion clock. -/
structure VideoEnv where
  filename : String
  id : String
  worker : String
  total : ℕ
  fps : ℚ
  readOk : ℕ → Bool
  classify : ℕ → String × ℚ
  randConf : ℚ
  faceRand : ℚ
  voiceRand : ℚ
  lipsyncRand : ℚ
  now : ℕ

/-- `detect_video_manipulation` (the loaded-model branch; the mock branch
differs only in where per-frame labels come from and in skipping the
per-frame progress writes).  Division is written with total `ℕ`/`ℚ`
operations; the pyDiv mirrors below certify that every division site the
handler evaluates has a non-zero divisor. -/
def detect_video (env : VideoEnv) (st : SysState) :
    Except HttpError VideoSuccess × SysState × List ℕ :=
  if !validVideoName env.filename then
    (Except.error ⟨400, ("Invalid video format. Supported: mp4, mov, avi, mkv, webm")⟩, st, [])
  else
    let case0 := mkCase env.id ("video") env.filename env.worker
    let cases1 := st.cases ++ [case0]
    let qm1 := bcastSelf (st.qm.add_item (mkQueueItem env.id ("video") env.worker))
    let qm2 := bcastSelf (qm1.update_item env.id 15 ("preprocessing"))
    let dur := if 0 < env.fps then (env.total : ℚ) / env.fps else 0
    let frames := (frameIndices env.total).filter env.readOk
    let qm3 := bcastSelf (qm2.update_item env.id 30 ("analyzing"))
    let n := frames.length
    let results := (List.range n).map env.classify
    let fake_confidences :=
      (results.filter (fun r => [("fake" : String), ("deepfake")].contains (strLower r.1))).map
        Prod.snd
    let frameTrace := (List.range n).map (fun k => 30 + k * 40 / n)
    let qm4 := (List.range n).foldl
      (fun q k => bcastSelf (q.update_item env.id (30 + k * 40 / n) ("analyzing"))) qm3
    let isF := video_is_fake fake_confidences
    let conf := video_confidence fake_confidences env.randConf
    let qm5 := bcastSelf (qm4.update_item env.id 80 ("llm_explaining"))
    let explanation := generate_explanation isF conf ("video")
    let verdict := fmt0f conf ++ ("% Likely ") ++
      (if isF then ("Manipulated" : String) else ("Authentic"))
    let done := { case0 with
                    status := CaseStatus.completed
                    confidence := pyRound conf 1
                    verdict := verdict
                    faceScore := some (pyRound (conf + env.faceRand) 1)
                    voiceScore := some (pyRound (conf + env.voiceRand) 1)
                    lipsyncScore := some (pyRound (conf + env.lipsyncRand) 1)
                    explanation := some explanation
                    completedAt := some env.now }
    (Except.ok { caseId := env.id, filename := env.filename,
                 duration_sec := pyRound dur 2, frames_analyzed := n,
                 is_fake := isF, confidence := pyRound conf 2, verdict := verdict,
                 explanation := explanation, frame_details := results },
     { cases := commitCase cases1 done, qm := bcastSelf (qm5.remove_item env.id) },
     [0, 15, 30] ++ frameTrace ++ [80])

/-- Division site `duration = total / fps if fps > 0 else 0`, with the
division checked by `pyDiv`. -/
def durationExpr (total : ℕ) (fps : ℚ) : Option ℚ :=
  if 0 < fps then pyDiv (total : ℚ) fps else some 0

/-- Division site inside `np.linspace(0, max(total-1, 0), 8)`: the step is
the span divided by `num - 1 = 7`, checked by `pyDiv`. -/
def linspaceStepExpr (total : ℕ) : Option ℚ := pyDiv ((total - 1 : ℕ) : ℚ) 7

/-- Division site `progress = 30 + int((idx / len(frames)) * 40)`, evaluated
only inside the per-frame loop (so with `idx < len(frames)`), checked by
`pyDiv`. -/
def frameProgressExpr (idx n : ℕ) : Option ℚ :=
  (pyDiv (idx : ℚ) (n : ℚ)).map (fun q => 30 + q * 40)

/-- Division site `np.mean(fake_confidences) if fake_confidences else 0`,
with the mean's division checked by `pyDiv`. -/
def meanExpr (l : List ℚ) : Option ℚ :=
  if l = [] then some 0 else pyDiv l.sum (l.length : ℚ)

/-- A video whose asset yields no decodable frame at any sampled position,
with an unreported frame rate (the spec's zero-decodable-frames scenario). -/
def envNoFrames : VideoEnv :=
  { filename := ("v.mp4"), id := ("case-9"), worker := ("worker-1"), total := 0,
    fps := 0, readOk := fun _ => false, classify := fun _ => (("Real"), 20),
    randConf := 75, faceRand := 0, voiceRand := 0, lipsyncRand := 0, now := 0 }

/-- Whether an endpoint call returned a 2xx body rather than raising. -/
def isOkResult {ε α : Type} : Except ε α → Bool
  | Except.ok _ => true
  | Except.error _ => false

/-- The id is not yet used by any case row or queue entry (the Orchestrator
guarantees fresh ids). -/
def idFresh (id : String) (st : SysState) : Prop :=
  (∀ c ∈ st.cases, c.id ≠ id) ∧ (∀ i ∈ st.qm.queue_items, i.id ≠ id)

/-- A sample queue entry for the duplicate-registration scenario. -/
def itemA : QueueItem := mkQueueItem ("case-1") ("image") ("worker-1")

/-- A manager already holding `itemA`. -/
def qmA : QueueManager := { active_connections := [], queue_items := [itemA] }

theorem roundHalfEven_intCast (n : ℤ) : roundHalfEven (n : ℚ) = n := by
  unfold roundHalfEven
  simp [Int.floor_intCast]

theorem pyRound_intCast (n : ℤ) (k : ℕ) : pyRound (n : ℚ) k = n := by
  unfold pyRound
  rw [show ((n : ℚ) * 10 ^ k) = ((n * 10 ^ k : ℤ) : ℚ) by push_cast; ring]
  rw [roundHalfEven_intCast]
  push_cast
  field_simp

theorem bcastSelf_eq (qm : QueueManager) : bcastSelf qm = qm := rfl

theorem avg_fake_conf_nil : avg_fake_conf [] = 0 := by simp [avg_fake_conf]

theorem video_is_fake_nil : video_is_fake [] = false := by
  simp only [video_is_fake, avg_fake_conf_nil]
  norm_num

theorem video_confidence_nil (rand : ℚ) : video_confidence [] rand = rand := by
  simp only [video_confidence, video_is_fake_nil, avg_fake_conf_nil]
  norm_num

theorem commitCase_append_fresh (cs : List CaseRec) (c0 c1 : CaseRec)
    (h : ∀ c ∈ cs, c.id ≠ c1.id) (hid : c0.id = c1.id) :
    commitCase (cs ++ [c0]) c1 = cs ++ [c1] := by
  unfold commitCase
  rw [List.map_append]
  congr 1
  · conv_rhs => rw [show cs = cs.map id from (List.map_id cs).symm]
    apply List.map_congr_left
    intro x hx
    simp [h x hx]
  · simp [hid]

theorem updateFirst_append_fresh (l : List QueueItem) (item : QueueItem) (iid : String)
    (p : ℕ) (s : String) (h : ∀ i ∈ l, i.id ≠ iid) (hid : item.id = iid) :
    updateFirst (l ++ [item]) iid p s = l ++ [{ item with progress := p, status := s }] := by
  induction l with
  | nil => simp [updateFirst, hid]
  | cons a t ih =>
    have ha : a.id ≠ iid := h a (List.mem_cons_self a t)
    simp only [List.cons_append, updateFirst]
    rw [if_neg (by simp [ha])]
    simp only [List.append_eq]
    rw [ih (fun i hi => h i (List.mem_cons_of_mem a hi))]

theorem filter_remove_append_fresh (l : List QueueItem) (item : QueueItem) (iid : String)
    (h : ∀ i ∈ l, i.id ≠ iid) (hid : item.id = iid) :
    (l ++ [item]).filter (fun i => !(i.id == iid)) = l := by
  rw [List.filter_append]
  have h1 : l.filter (fun i => !(i.id == iid)) = l := by
    apply List.filter_eq_self.mpr
    intro i hi
    simp [h i hi]
  have h2 : [item].filter (fun i => !(i.id == iid)) = [] := by
    simp [List.filter, hid]
  rw [h1, h2, List.append_nil]

theorem videoFrameVal_bounds (n k : ℕ) (hk : k < n) :
    30 ≤ 30 + k * 40 / n ∧ 30 + k * 40 / n ≤ 69 := by
  constructor
  · exact Nat.le_add_right 30 (k * 40 / n)
  · have hn : 0 < n := Nat.lt_of_le_of_lt (Nat.zero_le k) hk
    have : k * 40 / n < 40 := by
      apply Nat.div_lt_of_lt_mul
      have : k * 40 < n * 40 := by
        apply Nat.mul_lt_mul_of_lt_of_le hk (Nat.le_refl 40)
        norm_num
      omega
    omega

theorem videoTrace_pairwise (n : ℕ) :
    List.Pairwise (fun a b => a ≤ b)
      ([0, 15, 30] ++ (List.range n).map (fun k => 30 + k * 40 / n) ++ [80]) := by
  have hmid : ∀ x ∈ (List.range n).map (fun k => 30 + k * 40 / n), 30 ≤ x ∧ x ≤ 69 := by
    intro x hx
    obtain ⟨k, hk, rfl⟩ := List.mem_map.mp hx
    exact videoFrameVal_bounds n k (List.mem_range.mp hk)
  rw [List.pairwise_append, List.pairwise_append]
  refine ⟨⟨by decide, ?_, ?_⟩, by simp, ?_⟩
  · rw [List.pairwise_map]
    apply List.Pairwise.imp ?_ (List.pairwise_lt_range n)
    intro a b hab
    exact Nat.add_le_add_left (Nat.div_le_div_right (Nat.mul_le_mul_right 40 (Nat.le_of_lt hab))) 30
  · intro a ha b hb
    have h30 := (hmid b hb).1
    have : a ≤ 30 := by
      simp only [List.mem_cons, List.mem_singleton] at ha
      rcases ha with rfl | rfl | rfl | h
      · omega
      · omega
      · omega
      · simp at h
    omega
  · intro a ha b hb
    simp only [List.mem_singleton] at hb
    subst hb
    rw [List.mem_append] at ha
    rcases ha with h1 | h2
    · simp only [List.mem_cons, List.mem_singleton] at h1
      rcases h1 with rfl | rfl | rfl | h
      · omega
      · omega
      · omega
      · simp at h
    · have := (hmid a h2).2
      omega

theorem videoTrace_chain (n : ℕ) :
    List.Chain' (fun a b => a ≤ b)
      ([0, 15, 30] ++ (List.range n).map (fun k => 30 + k * 40 / n) ++ [80]) :=
  (videoTrace_pairwise n).chain'

theorem videoTrace_no100 (n : ℕ) :
    100 ∉ ([0, 15, 30] ++ (List.range n).map (fun k => 30 + k * 40 / n) ++ [80]) := by
  intro hmem
  rw [List.mem_append, List.mem_append] at hmem
  rcases hmem with (h1 | h2) | h3
  · simp at h1
  · obtain ⟨k, hk, hval⟩ := List.mem_map.mp h2
    have := (videoFrameVal_bounds n k (List.mem_range.mp hk)).2
    omega
  · simp at h3

theorem detect_audio_ok (f0 f1 id w : String) (sim : ℚ) (now : ℕ) (st : SysState)
    (h0 : validAudioName f0 = true) (h1 : validAudioName f1 = true) :
    (detect_audio [f0, f1] id w sim now st).1 =
      Except.ok { caseId := id, similarity_score := pyRound sim 4,
                  is_same_speaker := audio_is_same sim, threshold := audio_threshold,
                  confidence := pyRound (audio_confidence sim) 2,
                  verdict := audio_verdict sim,
                  explanation := generate_explanation (audio_is_same sim)
                    (audio_confidence sim) ("audio") } := by
  simp [detect_audio, h0, h1]

/-- Claim C1 counterexample: in a broadcast to three subscribers where the
middle one's channel raises, the other two receive the snapshot, but the
failing subscriber is NOT removed from `active_connections` — the claim's
removal clause is false on the code. -/
theorem broadcast_failed_subscriber_not_removed :
    (qm3.broadcast []).2 = [0, 2] ∧
    (qm3.broadcast []).1.active_connections = [⟨0, false⟩, ⟨1, true⟩, ⟨2, false⟩] := by
  decide

/-- Claim C1 (amended): during any broadcast, every subscriber whose channel
does not raise receives the snapshot, the mutation itself always completes
(the snapshot is stored), and no subscriber — failing or not — is removed
from the subscriber set. -/
theorem broadcast_fanout_isolation :
    ∀ (qm : QueueManager) (data : List QueueItem) (c : Conn),
      c ∈ qm.active_connections →
      (c.failsDelivery = false → c.cid ∈ (qm.broadcast data).2) ∧
      c ∈ (qm.broadcast data).1.active_connections ∧
      (qm.broadcast data).1.queue_items = data := by
  intro qm data c hc
  refine ⟨fun hf => ?_, hc, rfl⟩
  simp only [QueueManager.broadcast, List.mem_map]
  exact ⟨c, List.mem_filter.mpr ⟨hc, by simp [hf]⟩, rfl⟩

/-- Claim C1 witness: the amended theorem applied to the concrete
three-subscriber scenario. -/
theorem broadcast_fanout_isolation_witness :
    (0 : ℕ) ∈ (qm3.broadcast []).2 ∧ (⟨0, false⟩ : Conn) ∈ (qm3.broadcast []).1.active_connections := by
  have h := broadcast_fanout_isolation qm3 [] ⟨0, false⟩ (by decide)
  exact ⟨h.1 rfl, h.2.1⟩

/-- Claim C2 counterexample: committing a failure on a fresh audio case
leaves `completed_at` unset and the explanation empty, contradicting the
claim that the failure commit sets `completedAt` to the current time and
the explanation to the failure reason. -/
theorem commit_failure_missing_fields :
    (audio_commit_failure (mkCase ("case-1") ("audio") ("a.wav vs b.wav") ("worker-1"))).completedAt = none ∧
    (audio_commit_failure (mkCase ("case-1") ("audio") ("a.wav vs b.wav") ("worker-1"))).explanation = none :=
  ⟨rfl, rfl⟩

/-- Claim C2 (amended): every failure commit sets status to failed and the
verdict to "Analysis Failed"; the explanation is set to the failure reason
only in the image handler (audio and video leave it untouched); no failure
commit sets `completedAt`. -/
theorem commit_failure_behavior :
    ∀ (c : CaseRec) (msg : String),
      (image_commit_failure c msg).status = CaseStatus.failed ∧
      (image_commit_failure c msg).verdict = ("Analysis Failed") ∧
      (image_commit_failure c msg).explanation = some msg ∧
      (image_commit_failure c msg).completedAt = c.completedAt ∧
      (audio_commit_failure c).status = CaseStatus.failed ∧
      (audio_commit_failure c).verdict = ("Analysis Failed") ∧
      (audio_commit_failure c).explanation = c.explanation ∧
      (audio_commit_failure c).completedAt = c.completedAt ∧
      (video_commit_failure c).status = CaseStatus.failed ∧
      (video_commit_failure c).verdict = ("Analysis Failed") ∧
      (video_commit_failure c).explanation = c.explanation ∧
      (video_commit_failure c).completedAt = c.completedAt :=
  fun _ _ => ⟨rfl, rfl, rfl, rfl, rfl, rfl, rfl, rfl, rfl, rfl, rfl, rfl⟩

/-- Claim C6 counterexample: registering an entry whose id is already
present succeeds and leaves two entries with that id in the queue — the
claimed duplicate-id failure does not exist. -/
theorem add_item_duplicate_id :
    ((qmA.add_item itemA).queue_items.countP (fun i => i.id == ("case-1"))) = 2 := by
  decide

/-- Claim C6 (amended): `add_item` appends unconditionally — it never fails,
performs no duplicate check, and always increases the number of entries
carrying the inserted id by one, even when that id is already present. -/
theorem add_item_appends :
    ∀ (qm : QueueManager) (item : QueueItem),
      (qm.add_item item).queue_items = qm.queue_items ++ [item] ∧
      (qm.add_item item).queue_items.countP (fun i => i.id == item.id) =
        qm.queue_items.countP (fun i => i.id == item.id) + 1 := by
  intro qm item
  refine ⟨rfl, ?_⟩
  simp [QueueManager.add_item, List.countP_append, List.countP_cons]

/-- Claim C7: an audio submission with a file count other than 2 is rejected
with a 400 before any case row or queue entry is created: the state is
returned untouched and no progress is written. -/
theorem audio_count_validation :
    ∀ (files : List String) (id w : String) (sim : ℚ) (now : ℕ) (st : SysState),
      files.length ≠ 2 →
      detect_audio files id w sim now st =
        (Except.error ⟨400, ("Exactly 2 audio files required for speaker verification")⟩, st, []) := by
  intro files id w sim now st h
  rw [detect_audio, if_pos h]

/-- Claim C7 witness: a one-file submission against the empty state. -/
theorem audio_count_validation_witness :
    detect_audio [("a.wav")] ("case-1") ("worker-1") 0 0 st0 =
      (Except.error ⟨400, ("Exactly 2 audio files required for speaker verification")⟩, st0, []) :=
  audio_count_validation [("a.wav")] ("case-1") ("worker-1") 0 0 st0 (by decide)

/-- Claim C3 counterexample: when no frame is flagged fake the code reports
`np.random.uniform(70, 90)` (here the draw 75) instead of the claimed
`100 - meanFakeConfidence = 100`. -/
theorem video_confidence_no_fake_frames :
    video_is_fake [] = false ∧
    video_confidence [] 75 = 75 ∧
    (100 : ℚ) - avg_fake_conf [] = 100 ∧
    video_confidence [] 75 ≠ 100 - avg_fake_conf [] := by
  refine ⟨video_is_fake_nil, video_confidence_nil 75, ?_, ?_⟩
  · rw [avg_fake_conf_nil]; norm_num
  · rw [video_confidence_nil, avg_fake_conf_nil]; norm_num

/-- Claim C3 (amended): the video verdict is fake exactly when the mean
confidence across frames flagged fake (0 when none were flagged) exceeds
60; when not fake and that mean is positive the reported confidence is
`100 - mean`; when the mean is not positive (in particular when no frame
was flagged fake) the reported confidence is the uniform draw from
[70, 90), not `100 - mean`. -/
theorem video_verdict_rule :
    (∀ l : List ℚ, video_is_fake l = true ↔ 60 < avg_fake_conf l) ∧
    (∀ (l : List ℚ) (rand : ℚ), video_is_fake l = true →
        video_confidence l rand = avg_fake_conf l) ∧
    (∀ (l : List ℚ) (rand : ℚ), video_is_fake l = false → 0 < avg_fake_conf l →
        video_confidence l rand = 100 - avg_fake_conf l) ∧
    (∀ (l : List ℚ) (rand : ℚ), ¬ 0 < avg_fake_conf l →
        video_is_fake l = false ∧ video_confidence l rand = rand) := by
  refine ⟨?_, ?_, ?_, ?_⟩
  · intro l; simp [video_is_fake]
  · intro l rand h; simp [video_confidence, h]
  · intro l rand h h2; simp [video_confidence, h, h2]
  · intro l rand h
    have hf : video_is_fake l = false := by
      simp only [video_is_fake, decide_eq_false_iff_not]
      intro hlt
      exact h (lt_trans (by norm_num) hlt)
    exact ⟨hf, by simp [video_confidence, hf, h]⟩

/-- Claim C3 witness: a single flagged-fake frame at confidence 55 stays
below the threshold and yields reported confidence 45. -/
theorem video_verdict_rule_witness :
    video_confidence [55] 77 = 100 - avg_fake_conf [55] := by
  apply video_verdict_rule.2.2.1 [55] 77
  · simp [video_is_fake, avg_fake_conf]
    norm_num
  · simp [avg_fake_conf]

/-- Claim C9: no division site of the video pipeline can raise
`ZeroDivisionError` (the duration guard, the linspace step, the per-frame
progress with a non-empty frame list, and the mean of flagged
confidences), the 8 sampled positions always start at position 0, and a
video with zero decodable frames still terminates in a completed result
whose confidence is the degraded uniform draw. -/
theorem video_division_safety :
    (∀ (total : ℕ) (fps : ℚ), (durationExpr total fps).isSome = true) ∧
    (∀ total : ℕ, (linspaceStepExpr total).isSome = true) ∧
    (∀ idx n : ℕ, idx < n → (frameProgressExpr idx n).isSome = true) ∧
    (∀ l : List ℚ, (meanExpr l).isSome = true) ∧
    (∀ total : ℕ, (frameIndices total).length = 8 ∧ (frameIndices total).head? = some 0) ∧
    (∀ (env : VideoEnv) (st : SysState),
      validVideoName env.filename = true →
      (∀ i, env.readOk i = false) →
      ∃ body : VideoSuccess, (detect_video env st).1 = Except.ok body ∧
        body.frames_analyzed = 0 ∧ body.is_fake = false ∧
        body.confidence = pyRound env.randConf 2) := by
  refine ⟨?_, ?_, ?_, ?_, ?_, ?_⟩
  · intro total fps
    unfold durationExpr pyDiv
    split_ifs with h1 h2
    · exact absurd (h2 ▸ h1) (lt_irrefl 0)
    · simp
    · simp
  · intro total
    simp [linspaceStepExpr, pyDiv]
  · intro idx n h
    have hn : (n : ℚ) ≠ 0 := Nat.cast_ne_zero.mpr (by omega)
    simp [frameProgressExpr, pyDiv, hn]
  · intro l
    unfold meanExpr pyDiv
    split_ifs with h1 h2
    · simp
    · rw [Nat.cast_eq_zero] at h2
      exact absurd (List.length_eq_zero.mp h2) h1
    · simp
  · intro total
    constructor
    · simp [frameIndices]
    · rw [frameIndices, show List.range 8 = [0, 1, 2, 3, 4, 5, 6, 7] from rfl]
      simp
  · intro env st hval hread
    have hfil : (frameIndices env.total).filter env.readOk = [] :=
      List.filter_eq_nil_iff.mpr (fun a _ => by simp [hread a])
    simp only [detect_video, hval, Bool.not_true, Bool.false_eq_true, if_false, hfil,
      List.length_nil, List.range_zero, List.map_nil, List.filter_nil, video_is_fake_nil,
      video_confidence_nil]
    exact ⟨_, rfl, rfl, rfl, rfl⟩

/-- Claim C9 witness: the guarded per-frame progress at a one-frame video,
and the zero-decodable-frames scenario at a concrete environment. -/
theorem video_division_safety_witness :
    (frameProgressExpr 0 1).isSome = true ∧
    (∃ body : VideoSuccess, (detect_video envNoFrames st0).1 = Except.ok body ∧
      body.frames_analyzed = 0) := by
  refine ⟨video_division_safety.2.2.1 0 1 (by norm_num), ?_⟩
  obtain ⟨b, h1, h2, h3, h4⟩ :=
    video_division_safety.2.2.2.2.2 envNoFrames st0 (by decide) (fun i => rfl)
  exact ⟨b, h1, h2⟩

/-- Claim C8: the audio verdict is same-speaker exactly when the cosine
similarity reaches the 0.86 threshold, and a submission whose comparator
returns similarity 0.90 yields verdict "Same Speaker (90% similarity)",
confidence 90 and reported threshold 0.86. -/
theorem audio_threshold_verdict :
    (∀ s : ℚ, audio_is_same s = true ↔ audio_threshold ≤ s) ∧
    audio_threshold = 86 / 100 ∧
    (detect_audio [("a.wav"), ("b.wav")] ("case-1") ("worker-1") (9 / 10) 0 st0).1 =
      Except.ok { caseId := ("case-1"), similarity_score := 9 / 10,
                  is_same_speaker := true, threshold := 86 / 100, confidence := 90,
                  verdict := ("Same Speaker (90% similarity)"),
                  explanation := generate_explanation true 90 ("audio") } := by
  have h90 : (90 : ℚ) = ((90 : ℤ) : ℚ) := by norm_num
  have hsame : audio_is_same (9 / 10) = true := by
    simp only [audio_is_same, audio_threshold, decide_eq_true_eq]
    norm_num
  have hconf : audio_confidence (9 / 10) = 90 := by norm_num [audio_confidence]
  have hf90 : fmt0f (90 : ℚ) = ("90") := by
    unfold fmt0f
    rw [h90, roundHalfEven_intCast]
    decide
  have hverd : audio_verdict (9 / 10) = ("Same Speaker (90% similarity)") := by
    simp only [audio_verdict, hsame, hconf, if_true, hf90]
    decide
  have psim : pyRound (9 / 10) 4 = 9 / 10 := by
    unfold pyRound
    rw [show ((9 / 10 : ℚ) * 10 ^ 4) = ((9000 : ℤ) : ℚ) by push_cast; ring,
        roundHalfEven_intCast]
    push_cast
    norm_num
  have pconf : pyRound (audio_confidence (9 / 10)) 2 = 90 := by
    rw [hconf, h90, pyRound_intCast]
  refine ⟨?_, rfl, ?_⟩
  · intro s
    simp [audio_is_same]
  · rw [detect_audio_ok ("a.wav") ("b.wav") ("case-1") ("worker-1") (9 / 10) 0 st0
        (by decide) (by decide)]
    rw [psim, pconf, hverd, hsame, hconf]
    rfl

/-- Claim C10: the committed audio confidence is always `similarity * 100` —
confidence in "same speaker" — whichever verdict is reported; at
similarity 0.5 the verdict says "Different Speakers (50% similarity)" while
the confidence is still 50. -/
theorem audio_confidence_semantics :
    (∀ s : ℚ, audio_confidence s = s * 100) ∧
    (∀ (f0 f1 id w : String) (s : ℚ) (now : ℕ) (st : SysState),
      validAudioName f0 = true → validAudioName f1 = true →
      ∃ body : AudioSuccess, (detect_audio [f0, f1] id w s now st).1 = Except.ok body ∧
        body.confidence = pyRound (s * 100) 2 ∧ body.is_same_speaker = audio_is_same s ∧
        body.verdict = audio_verdict s) ∧
    audio_is_same (1 / 2) = false ∧
    audio_verdict (1 / 2) = ("Different Speakers (50% similarity)") ∧
    audio_confidence (1 / 2) = 50 := by
  have hsame2 : audio_is_same (1 / 2) = false := by
    simp only [audio_is_same, audio_threshold, decide_eq_false_iff_not]
    norm_num
  have hconf2 : audio_confidence (1 / 2) = 50 := by norm_num [audio_confidence]
  have hf50 : fmt0f (50 : ℚ) = ("50") := by
    unfold fmt0f
    rw [show (50 : ℚ) = ((50 : ℤ) : ℚ) by norm_num, roundHalfEven_intCast]
    decide
  refine ⟨fun s => rfl, ?_, hsame2, ?_, hconf2⟩
  · intro f0 f1 id w s now st h0 h1
    exact ⟨_, detect_audio_ok f0 f1 id w s now st h0 h1, rfl, rfl, rfl⟩
  · simp only [audio_verdict, hsame2, hconf2, if_false, Bool.false_eq_true, hf50]
    decide

/-- Claim C10 witness: the general statement applied to a concrete
below-threshold pair. -/
theorem audio_confidence_semantics_witness :
    ∃ body : AudioSuccess,
      (detect_audio [("a.wav"), ("b.wav")] ("case-1") ("worker-1") (1 / 2) 0 st0).1 =
        Except.ok body ∧
      body.confidence = pyRound ((1 / 2 : ℚ) * 100) 2 := by
  obtain ⟨b, h1, h2, h3, h4⟩ :=
    audio_confidence_semantics.2.1 ("a.wav") ("b.wav") ("case-1") ("worker-1") (1 / 2) 0 st0
      (by decide) (by decide)
  exact ⟨b, h1, h2⟩

/-- Claim C4 counterexample: an audio pair whose second file has a bad
format passes the count check, so the case row is created first; the format
check then raises inside the `try` block and resurfaces as a 500 server
error with the case committed as failed — not the claimed side-effect-free
client error. -/
theorem audio_format_late_validation :
    (detect_audio [("a.wav"), ("b.txt")] ("case-1") ("worker-1") 0 0 st0).1 =
      Except.error ⟨500, ("Audio analysis failed: 400: Unsupported audio format: b.txt")⟩ ∧
    ((detect_audio [("a.wav"), ("b.txt")] ("case-1") ("worker-1") 0 0 st0).2.1.cases.map
        (fun c => c.status)) = [CaseStatus.failed] := by
  have h0 : validAudioName ("a.wav") = true := by decide
  have h1 : validAudioName ("b.txt") = false := by decide
  constructor
  · simp [detect_audio, h0, h1]
  · simp [detect_audio, h0, h1, commitCase, audio_commit_failure, mkCase, st0]

/-- Claim C4 (amended): image format failures and audio count failures are
rejected with a 400 and zero side effects; but an audio format failure —
whichever of the two files is malformed — is detected only inside the
pipeline, after the Job Record exists: the caller gets a 500, the record is
committed as failed (and kept), and only the queue entry is rolled back. -/
theorem validation_side_effects :
    (∀ (fn id w : String) (oc : ClassifyOutcome) (fr : ℚ) (now : ℕ) (st : SysState),
       validImageName fn = false →
       detect_image fn id w oc fr now st =
         (Except.error ⟨400, ("Invalid image format. Supported: png, jpg, jpeg, bmp, webp")⟩, st, [])) ∧
    (∀ (files : List String) (id w : String) (sim : ℚ) (now : ℕ) (st : SysState),
       files.length ≠ 2 →
       detect_audio files id w sim now st =
         (Except.error ⟨400, ("Exactly 2 audio files required for speaker verification")⟩, st, [])) ∧
    (∀ (f0 f1 id w : String) (sim : ℚ) (now : ℕ) (st : SysState),
       validAudioName f0 = true → validAudioName f1 = false → idFresh id st →
       (detect_audio [f0, f1] id w sim now st).1 =
         Except.error ⟨500, ("Audio analysis failed: 400: Unsupported audio format: ") ++ f1⟩ ∧
       (detect_audio [f0, f1] id w sim now st).2.1.cases =
         st.cases ++ [audio_commit_failure (mkCase id ("audio") (f0 ++ (" vs ") ++ f1) w)] ∧
       (detect_audio [f0, f1] id w sim now st).2.1.qm = st.qm) ∧
    (∀ (f0 f1 id w : String) (sim : ℚ) (now : ℕ) (st : SysState),
       validAudioName f0 = false → idFresh id st →
       (detect_audio [f0, f1] id w sim now st).1 =
         Except.error ⟨500, ("Audio analysis failed: 400: Unsupported audio format: ") ++ f0⟩ ∧
       (detect_audio [f0, f1] id w sim now st).2.1.cases =
         st.cases ++ [audio_commit_failure (mkCase id ("audio") (f0 ++ (" vs ") ++ f1) w)] ∧
       (detect_audio [f0, f1] id w sim now st).2.1.qm = st.qm) := by
  refine ⟨?_, ?_, ?_, ?_⟩
  · intro fn id w oc fr now st h
    simp [detect_image, h]
  · intro files id w sim now st h
    rw [detect_audio, if_pos h]
  · intro f0 f1 id w sim now st h0 h1 hfresh
    obtain ⟨hfc, hfq⟩ := hfresh
    have hred : detect_audio [f0, f1] id w sim now st =
        (Except.error ⟨500, ("Audio analysis failed: 400: Unsupported audio format: ") ++ f1⟩,
         { cases := commitCase (st.cases ++ [mkCase id ("audio") (f0 ++ (" vs ") ++ f1) w])
                      (audio_commit_failure (mkCase id ("audio") (f0 ++ (" vs ") ++ f1) w)),
           qm := ((st.qm.add_item (mkQueueItem id ("audio") w)).update_item id 20
                    ("preprocessing")).remove_item id },
         [0, 20]) := by
      simp [detect_audio, h0, h1, bcastSelf_eq]
    rw [hred]
    refine ⟨rfl, ?_, ?_⟩
    · exact commitCase_append_fresh st.cases _ _ (fun c hc => hfc c hc) rfl
    · have h1q : updateFirst (st.qm.queue_items ++ [mkQueueItem id ("audio") w]) id 20
          ("preprocessing") =
          st.qm.queue_items ++
            [{ mkQueueItem id ("audio") w with progress := 20, status := ("preprocessing") }] :=
        updateFirst_append_fresh _ _ _ _ _ hfq rfl
      have h2q : (st.qm.queue_items ++
            [{ mkQueueItem id ("audio") w with progress := 20, status := ("preprocessing") }]).filter
            (fun i => !(i.id == id)) = st.qm.queue_items :=
        filter_remove_append_fresh _ _ _ hfq rfl
      simp [QueueManager.add_item, QueueManager.update_item, QueueManager.remove_item, h1q, h2q]
  · intro f0 f1 id w sim now st h0 hfresh
    obtain ⟨hfc, hfq⟩ := hfresh
    have hred : detect_audio [f0, f1] id w sim now st =
        (Except.error ⟨500, ("Audio analysis failed: 400: Unsupported audio format: ") ++ f0⟩,
         { cases := commitCase (st.cases ++ [mkCase id ("audio") (f0 ++ (" vs ") ++ f1) w])
                      (audio_commit_failure (mkCase id ("audio") (f0 ++ (" vs ") ++ f1) w)),
           qm := (st.qm.add_item (mkQueueItem id ("audio") w)).remove_item id },
         [0]) := by
      simp [detect_audio, h0, bcastSelf_eq]
    rw [hred]
    refine ⟨rfl, ?_, ?_⟩
    · exact commitCase_append_fresh st.cases _ _ (fun c hc => hfc c hc) rfl
    · have h2q : (st.qm.queue_items ++ [mkQueueItem id ("audio") w]).filter
          (fun i => !(i.id == id)) = st.qm.queue_items :=
        filter_remove_append_fresh _ _ _ hfq rfl
      simp [QueueManager.add_item, QueueManager.remove_item, h2q]

/-- Claim C4 witness: the amended statement applied to concrete bad-format
audio pairs against the empty state — once with the second file malformed,
once with the first. -/
theorem validation_side_effects_witness :
    (detect_audio [("a.wav"), ("b.txt")] ("case-2") ("worker-1") 0 0 st0).2.1.qm = st0.qm ∧
    (detect_audio [("a.wav"), ("b.txt")] ("case-2") ("worker-1") 0 0 st0).2.1.cases =
      st0.cases ++ [audio_commit_failure (mkCase ("case-2") ("audio")
        (("a.wav") ++ (" vs ") ++ ("b.txt")) ("worker-1"))] ∧
    (detect_audio [("b.txt"), ("a.wav")] ("case-3") ("worker-1") 0 0 st0).1 =
      Except.error ⟨500, ("Audio analysis failed: 400: Unsupported audio format: ") ++ ("b.txt")⟩ ∧
    (detect_audio [("b.txt"), ("a.wav")] ("case-3") ("worker-1") 0 0 st0).2.1.qm = st0.qm := by
  have h := validation_side_effects.2.2.1 ("a.wav") ("b.txt") ("case-2") ("worker-1") 0 0 st0
    (by decide) (by decide)
    ⟨fun c hc => absurd hc (List.not_mem_nil c), fun i hi => absurd hi (List.not_mem_nil i)⟩
  have h2 := validation_side_effects.2.2.2 ("b.txt") ("a.wav") ("case-3") ("worker-1") 0 0 st0
    (by decide)
    ⟨fun c hc => absurd hc (List.not_mem_nil c), fun i hi => absurd hi (List.not_mem_nil i)⟩
  exact ⟨h.2.2, h.2.1, h2.1, h2.2.2⟩

/-- Claim C5 counterexample: a successful image job completes (no failure),
yet the progress values written to its queue entry are 0, 30, 70, 90 — the
sequence never reaches 100; the entry is removed at 90. -/
theorem progress_stops_at_90 :
    isOkResult (detect_image ("a.png") ("case-1") ("worker-1")
      (ClassifyOutcome.ok ("Real") 20) 0 0 st0).1 = true ∧
    (detect_image ("a.png") ("case-1") ("worker-1")
      (ClassifyOutcome.ok ("Real") 20) 0 0 st0).2.2 = [0, 30, 70, 90] ∧
    100 ∉ ([0, 30, 70, 90] : List ℕ) := by
  have hv : validImageName ("a.png") = true := by decide
  refine ⟨?_, ?_, by decide⟩
  · simp [detect_image, hv, isOkResult]
  · simp [detect_image, hv]

/-- Claim C5 (amended): on every path of every handler the progress values
written to the job's queue entry are monotonically non-decreasing, but they
never reach 100: a successful job's last write is 90 (image) or 80
(audio/video) and the entry is then removed. -/
theorem progress_monotone :
    (∀ (fn id w : String) (oc : ClassifyOutcome) (fr : ℚ) (now : ℕ) (st : SysState),
       List.Chain' (fun a b => a ≤ b) (detect_image fn id w oc fr now st).2.2 ∧
       100 ∉ (detect_image fn id w oc fr now st).2.2) ∧
    (∀ (files : List String) (id w : String) (sim : ℚ) (now : ℕ) (st : SysState),
       List.Chain' (fun a b => a ≤ b) (detect_audio files id w sim now st).2.2 ∧
       100 ∉ (detect_audio files id w sim now st).2.2) ∧
    (∀ (env : VideoEnv) (st : SysState),
       List.Chain' (fun a b => a ≤ b) (detect_video env st).2.2 ∧
       100 ∉ (detect_video env st).2.2) := by
  refine ⟨?_, ?_, ?_⟩
  · intro fn id w oc fr now st
    cases hv : validImageName fn with
    | false =>
      have ht : (detect_image fn id w oc fr now st).2.2 = [] := by simp [detect_image, hv]
      rw [ht]
      exact ⟨List.chain'_nil, by decide⟩
    | true =>
      cases oc with
      | err msg =>
        have ht : (detect_image fn id w (ClassifyOutcome.err msg) fr now st).2.2 = [0, 30] := by
          simp [detect_image, hv]
        rw [ht]
        exact ⟨by simp [List.chain'_cons, List.chain'_singleton], by decide⟩
      | ok label conf =>
        have ht : (detect_image fn id w (ClassifyOutcome.ok label conf) fr now st).2.2 =
            [0, 30, 70, 90] := by
          simp [detect_image, hv]
        rw [ht]
        exact ⟨by simp [List.chain'_cons, List.chain'_singleton], by decide⟩
  · intro files id w sim now st
    by_cases hl : files.length = 2
    · obtain ⟨f0, rest, rfl⟩ : ∃ a t, files = a :: t := by
        cases files with
        | nil => simp at hl
        | cons a t => exact ⟨a, t, rfl⟩
      obtain ⟨f1, rest2, rfl⟩ : ∃ b t, rest = b :: t := by
        cases rest with
        | nil => simp at hl
        | cons b t => exact ⟨b, t, rfl⟩
      have hnil : rest2 = [] := by
        simp only [List.length_cons] at hl
        exact List.length_eq_zero.mp (by omega)
      subst hnil
      cases hv0 : validAudioName f0 with
      | false =>
        have ht : (detect_audio [f0, f1] id w sim now st).2.2 = [0] := by
          simp [detect_audio, hv0]
        rw [ht]
        exact ⟨List.chain'_singleton 0, by decide⟩
      | true =>
        cases hv1 : validAudioName f1 with
        | false =>
          have ht : (detect_audio [f0, f1] id w sim now st).2.2 = [0, 20] := by
            simp [detect_audio, hv0, hv1]
          rw [ht]
          exact ⟨by simp [List.chain'_cons, List.chain'_singleton], by decide⟩
        | true =>
          have ht : (detect_audio [f0, f1] id w sim now st).2.2 = [0, 20, 35, 50, 80] := by
            simp [detect_audio, hv0, hv1]
          rw [ht]
          exact ⟨by simp [List.chain'_cons, List.chain'_singleton], by decide⟩
    · have ht : (detect_audio files id w sim now st).2.2 = [] := by
        rw [detect_audio, if_pos hl]
      rw [ht]
      exact ⟨List.chain'_nil, by decide⟩
  · intro env st
    cases hv : validVideoName env.filename with
    | false =>
      have ht : (detect_video env st).2.2 = [] := by simp [detect_video, hv]
      rw [ht]
      exact ⟨List.chain'_nil, by decide⟩
    | true =>
      have ht : (detect_video env st).2.2 =
          [0, 15, 30] ++
            (List.range ((frameIndices env.total).filter env.readOk).length).map
              (fun k => 30 + k * 40 / ((frameIndices env.total).filter env.readOk).length) ++
            [80] := by
        simp [detect_video, hv]
      rw [ht]
      exact ⟨videoTrace_chain _, videoTrace_no100 _⟩
